import Mathlib

set_option linter.unusedVariables false

/-!
# Verification of the Lab5 content-repurposing workflows

A shallow embedding of `src/Lab5.py`: a blog-post repurposing program that
orchestrates calls to an LLM completion service.  The completion gateway is an
external collaborator; we model it as a call-indexed oracle
`ω : Nat → Option LLMResponse` together with an explicit call counter threaded
through every function (`none` models a `call_llm` failure, i.e. the Python
function returning `None` after catching an exception).  Since the program
issues its gateway calls in a strict linear order, any behaviour of the real
service over one run is captured by some oracle of this shape, and the counter
difference across a function is exactly the number of gateway calls it makes.
Prompt strings sent to the gateway are plumbing: the oracle's answer does not
depend on them in this model, so prompt assembly is reproduced only where the
assembled data is carried in program state (the agent conversation log).

JSON values decoded from tool-call arguments are modelled by `JValue`;
Python truthiness of `arguments.get(k)` is modelled by `jtruthyOpt`.
Quality scores (Python floats 0.5 / 0.6 / 0.8 / 0.9) are modelled as
rationals; on these constants float comparison agrees with exact rational
comparison, so every branch decision is preserved.
-/

/-- A JSON value, as produced by `json.loads` on tool-call arguments. -/
inductive JValue where
  | null : JValue
  | str : String → JValue
  | arr : List JValue → JValue
  | obj : List (String × JValue) → JValue

/-- Lookup in a decoded JSON object (Python `dict.get(k)` — first binding wins,
`None` when the key is absent). -/
def jlookup (l : List (String × JValue)) (key : String) : Option JValue :=
  match l with
  | [] => none
  | (k, v) :: rest => if k = key then some v else jlookup rest key

/-- Python `dict.get(k, default)`. -/
def jlookupD (l : List (String × JValue)) (key : String) (d : JValue) : JValue :=
  (jlookup l key).getD d

/-- Python truthiness of a decoded JSON value (`not x`). -/
def JValue.truthy : JValue → Bool
  | .null => false
  | .str s => !s.isEmpty
  | .arr l => !l.isEmpty
  | .obj l => !l.isEmpty

/-- Python truthiness of `dict.get(k)`: `None` and empty values are falsy. -/
def jtruthyOpt : Option JValue → Bool
  | none => false
  | some v => v.truthy

mutual

/-- Model of `json.dumps` (modulo whitespace/escaping details, which are plumbing: the
resulting strings are only carried in conversation state, never branched on). -/
def jdumps : JValue → String
  | .null => "null"
  | .str s => "\"" ++ s ++ "\""
  | .arr l => "[" ++ jdumpsArr l ++ "]"
  | .obj l => "\x7b" ++ jdumpsObj l ++ "\x7d"

/-- Comma-separated dump of a JSON array's elements. -/
def jdumpsArr : List JValue → String
  | [] => ""
  | [v] => jdumps v
  | v :: rest => jdumps v ++ ", " ++ jdumpsArr rest

/-- Comma-separated dump of a JSON object's bindings. -/
def jdumpsObj : List (String × JValue) → String
  | [] => ""
  | [(k, v)] => "\"" ++ k ++ "\": " ++ jdumps v
  | (k, v) :: rest => "\"" ++ k ++ "\": " ++ jdumps v ++ ", " ++ jdumpsObj rest

end

/-- Python `str(x)` on a decoded JSON value, as interpolated into an f-string
prompt (approximate text; the oracle never reads it). -/
def pyShow : JValue → String
  | .str s => s
  | .null => "None"
  | v => jdumps v

/-- One structured tool invocation returned by the model
(`tool_call.id`, `.function.name`, json-decoded `.function.arguments`). -/
structure ToolCall where
  id : String
  name : String
  arguments : List (String × JValue)

/-- The assistant message inside a completion response
(`response.choices[0].message`). -/
structure AssistantMsg where
  content : String
  tool_calls : List ToolCall

/-- A successful completion response (the single choice is collapsed into its
message). -/
structure LLMResponse where
  message : AssistantMsg

/-- The completion gateway, as a call-indexed oracle: the value at `k` is the
outcome of the `k`-th `call_llm` in the run, `none` being a failed call. -/
def Oracle : Type := Nat → Option LLMResponse

/-- Model of `call_llm`: one gateway call; returns the response (or `None` on failure)
and advances the call counter. -/
def call_llm (ω : Oracle) (k : Nat) : Option LLMResponse × Nat :=
  (ω k, k + 1)

/-- The sample blog post (`{title, content}`), loaded from the JSON data file. -/
structure BlogPost where
  title : String
  content : String
deriving Repr, DecidableEq

/-- Model of `task_extract_key_points`: one forced-tool gateway call; on success takes
`arguments.get("key_points", [])` from the first tool call, otherwise `[]`. -/
def task_extract_key_points (ω : Oracle) (bp : BlogPost) (k : Nat) : JValue × Nat :=
  let res := call_llm ω k
  match res.1 with
  | some r =>
    match r.message.tool_calls with
    | [] => (JValue.arr [], res.2)
    | tc :: _ => (jlookupD tc.arguments "key_points" (JValue.arr []), res.2)
  | none => (JValue.arr [], res.2)

/-- Model of `task_generate_summary`: one forced-tool gateway call; on success takes
`arguments.get("summary", "")` from the first tool call, otherwise `""`. -/
def task_generate_summary (ω : Oracle) (key_points : JValue) (k : Nat) : JValue × Nat :=
  let res := call_llm ω k
  match res.1 with
  | some r =>
    match r.message.tool_calls with
    | [] => (JValue.str "", res.2)
    | tc :: _ => (jlookupD tc.arguments "summary" (JValue.str ""), res.2)
  | none => (JValue.str "", res.2)

/-- Model of `task_create_social_media_posts`: one forced-tool gateway call; on success
returns the whole decoded argument object, otherwise `{}`. -/
def task_create_social_media_posts (ω : Oracle) (key_points : JValue) (blog_title : String)
    (k : Nat) : JValue × Nat :=
  let res := call_llm ω k
  match res.1 with
  | some r =>
    match r.message.tool_calls with
    | [] => (JValue.obj [], res.2)
    | tc :: _ => (JValue.obj tc.arguments, res.2)
  | none => (JValue.obj [], res.2)

/-- Model of `task_create_email_newsletter`: one forced-tool gateway call; on success
returns the whole decoded argument object, otherwise `{}`. -/
def task_create_email_newsletter (ω : Oracle) (bp : BlogPost) (summary : JValue)
    (key_points : JValue) (k : Nat) : JValue × Nat :=
  let res := call_llm ω k
  match res.1 with
  | some r =>
    match r.message.tool_calls with
    | [] => (JValue.obj [], res.2)
    | tc :: _ => (JValue.obj tc.arguments, res.2)
  | none => (JValue.obj [], res.2)

/-- The evaluation dict (fields `quality_score`, `feedback`) returned by `evaluate_content`. -/
structure EvaluationResult where
  quality_score : ℚ
  feedback : String
deriving Repr, DecidableEq

/-- Does the pattern (second list) occur at the head of the first list? -/
def charsStartWith : List Char → List Char → Bool
  | _, [] => true
  | [], _ :: _ => false
  | c :: cs, p :: ps => (c == p) && charsStartWith cs ps

/-- Does the pattern occur anywhere in the list? -/
def charsContain (s pat : List Char) : Bool :=
  match s with
  | [] => pat.isEmpty
  | _ :: cs => charsStartWith s pat || charsContain cs pat

/-- Substring containment, Python's `pat in s`. -/
def strContains (s pat : String) : Bool :=
  charsContain s.data pat.data

/-- Model of `evaluate_content(content, content_type)`: one free-form gateway call; on
success the score is `0.9` when the feedback text contains `"good"` else
`0.6`; on gateway failure the fixed default `{0.5, "No evaluation"}`. -/
def evaluate_content (ω : Oracle) (content : String) (content_type : String)
    (k : Nat) : EvaluationResult × Nat :=
  let res := call_llm ω k
  match res.1 with
  | some r =>
    ({ quality_score := if strContains r.message.content "good" then mkRat 9 10 else mkRat 6 10,
       feedback := r.message.content }, res.2)
  | none => ({ quality_score := mkRat 5 10, feedback := "No evaluation" }, res.2)

/-- Model of `improve_content(content, feedback, content_type)`: one gateway call; on
success adopt the model's text as the new content, on failure keep the old. -/
def improve_content (ω : Oracle) (content : JValue) (feedback : String)
    (content_type : String) (k : Nat) : JValue × Nat :=
  let res := call_llm ω k
  match res.1 with
  | some r => (JValue.str r.message.content, res.2)
  | none => (content, res.2)

/-- The `for _ in range(max_attempts)` body of `generate_with_reflexion`:
evaluate; return the current content if the score reaches `0.8`; otherwise
improve and continue.  After the range is exhausted, return the last content. -/
def reflexion_loop (ω : Oracle) (content_type : String) :
    Nat → JValue → Nat → JValue × Nat
  | 0, content, k => (content, k)
  | n + 1, content, k =>
    let ev := evaluate_content ω (pyShow content) content_type k
    if ev.1.quality_score ≥ mkRat 8 10 then (content, ev.2)
    else
      let im := improve_content ω content ev.1.feedback content_type ev.2
      reflexion_loop ω content_type n im.1 im.2

/-- Model of `generate_with_reflexion(generator_func, max_attempts)` applied to its
arguments: run the generator once, then the evaluate/improve loop. -/
def generate_with_reflexion (ω : Oracle) (gen : Nat → JValue × Nat)
    (max_attempts : Nat) (content_type : String) (k : Nat) : JValue × Nat :=
  let g := gen k
  reflexion_loop ω content_type max_attempts g.1 g.2

/-- Output dict of `run_workflow_with_reflexion`. -/
structure ReflexionOutput where
  summary : JValue
  social_media : JValue
  email : JValue

/-- Model of `run_workflow_with_reflexion`: extract, then three independent
reflexion-wrapped generations (default attempt budget 3 each). -/
def run_workflow_with_reflexion (ω : Oracle) (bp : BlogPost) (k : Nat) :
    ReflexionOutput × Nat :=
  let ext := task_extract_key_points ω bp k
  let key_points := ext.1
  let sm := generate_with_reflexion ω (fun j => task_generate_summary ω key_points j)
    3 "summary" ext.2
  let posts := generate_with_reflexion ω
    (fun j => task_create_social_media_posts ω key_points bp.title j)
    3 "social_media_post" sm.2
  let email := generate_with_reflexion ω
    (fun j => task_create_email_newsletter ω bp sm.1 key_points j)
    3 "email" posts.2
  ({ summary := sm.1, social_media := posts.1, email := email.1 }, email.2)

/-- A message in the agent conversation log (system / user / assistant / tool
entries; unused fields default to empty). -/
structure ChatMsg where
  role : String
  content : String
  name : String := ""
  tool_call_id : String := ""
  tool_calls : List ToolCall := []

/-- Model of `execute_agent_tool(tool_name, arguments)`.  `bp` is the sample blog post
the function re-loads from disk (the data-file collaborator).  Missing or
falsy `key_points` / `summary` arguments are re-derived by calling the
corresponding upstream task first (fallback recovery). -/
def execute_agent_tool (ω : Oracle) (bp : BlogPost) (tool_name : String)
    (arguments : List (String × JValue)) (k : Nat) : JValue × Nat :=
  if tool_name = "extract_key_points" then
    let ext := task_extract_key_points ω bp k
    (JValue.obj [("key_points", ext.1)], ext.2)
  else if tool_name = "generate_summary" then
    let kp0 := jlookup arguments "key_points"
    let kp := if jtruthyOpt kp0 then (kp0.getD (JValue.arr []), k)
              else task_extract_key_points ω bp k
    let s := task_generate_summary ω kp.1 kp.2
    (JValue.obj [("summary", s.1)], s.2)
  else if tool_name = "create_social_media_posts" then
    let kp0 := jlookup arguments "key_points"
    let kp := if jtruthyOpt kp0 then (kp0.getD (JValue.arr []), k)
              else task_extract_key_points ω bp k
    task_create_social_media_posts ω kp.1 bp.title kp.2
  else if tool_name = "create_email_newsletter" then
    let kp0 := jlookup arguments "key_points"
    let kp := if jtruthyOpt kp0 then (kp0.getD (JValue.arr []), k)
              else task_extract_key_points ω bp k
    let s0 := jlookup arguments "summary"
    let s := if jtruthyOpt s0 then (s0.getD (JValue.str ""), kp.2)
             else task_generate_summary ω kp.1 kp.2
    task_create_email_newsletter ω bp s.1 kp.1 s.2
  else (JValue.obj [], k)

/-- The partial-results accumulator `{"summary": None, "social_posts": None,
"email": None}` of `run_agent_workflow`; `none` models Python `None`. -/
structure Results where
  summary : Option JValue
  social_posts : Option JValue
  email : Option JValue

/-- The accumulator as first initialised. -/
def initResults : Results :=
  { summary := none, social_posts := none, email := none }

/-- Recording a tool's result into the accumulator
(`results["summary"] = tool_result.get("summary")`, etc.). -/
def updateResults (r : Results) (tool_name : String) (tool_result : JValue) : Results :=
  if tool_name = "generate_summary" then
    { r with summary := match tool_result with
                        | .obj l => jlookup l "summary"
                        | _ => none }
  else if tool_name = "create_social_media_posts" then
    { r with social_posts := some tool_result }
  else if tool_name = "create_email_newsletter" then
    { r with email := some tool_result }
  else r

/-- The tool-result message appended to the conversation after a dispatch. -/
def toolResultMsg (tc : ToolCall) (tool_result : JValue) : ChatMsg :=
  { role := "tool", content := jdumps tool_result,
    name := tc.name, tool_call_id := tc.id }

/-- Final result of `run_agent_workflow`: the three Python return sites —
`{"error": "LLM call failed"}`, the `finish` tool's argument mapping, and the
fallback return of the partial-results accumulator. -/
inductive AgentResult where
  | error : AgentResult
  | finished : List (String × JValue) → AgentResult
  | collected : Results → AgentResult

/-- The inner `for tool_call in msg.tool_calls` body: a `finish` invocation
returns its arguments at once (remaining queued calls are skipped); any other
invocation is dispatched, recorded, and echoed into the conversation. -/
def process_tool_calls (ω : Oracle) (bp : BlogPost) :
    List ToolCall → Results → List ChatMsg → Nat →
    Option (List (String × JValue)) × Results × List ChatMsg × Nat
  | [], results, msgs, k => (none, results, msgs, k)
  | tc :: rest, results, msgs, k =>
    if tc.name = "finish" then (some tc.arguments, results, msgs, k)
    else
      let ex := execute_agent_tool ω bp tc.name tc.arguments k
      process_tool_calls ω bp rest (updateResults results tc.name ex.1)
        (msgs ++ [toolResultMsg tc ex.1]) ex.2

/-- The `for i in range(max_iterations)` loop of `run_agent_workflow`: call the
model; on gateway failure return the error result; append the assistant
message; stop (returning the accumulator) when no tool is called; otherwise
process the turn's tool calls, returning `finish`'s arguments if it occurs. -/
def agent_loop (ω : Oracle) (bp : BlogPost) :
    Nat → List ChatMsg → Results → Nat → AgentResult × Nat
  | 0, _msgs, results, k => (.collected results, k)
  | fuel + 1, msgs, results, k =>
    let res := call_llm ω k
    match res.1 with
    | none => (.error, res.2)
    | some r =>
      let msgs1 := msgs ++ [{ role := "assistant", content := r.message.content,
                              tool_calls := r.message.tool_calls : ChatMsg }]
      match r.message.tool_calls with
      | [] => (.collected results, res.2)
      | tc :: rest =>
        let pr := process_tool_calls ω bp (tc :: rest) results msgs1 res.2
        match pr.1 with
        | some args => (.finished args, pr.2.2.2)
        | none => agent_loop ω bp fuel pr.2.2.1 pr.2.1 pr.2.2.2

/-- The initial conversation seeded by `run_agent_workflow`. -/
def initAgentMessages (bp : BlogPost) : List ChatMsg :=
  [{ role := "system",
     content := "You are a Content Repurposing Agent. Your job is to take a blog post and repurpose it into:\n1. Extracted key points\n2. A concise summary\n3. Social media posts\n4. An email newsletter\nUse the tools provided, and when you're done, call the 'finish' tool with all the final results." },
   { role := "user",
     content := "Blog:\n\nTitle: " ++ bp.title ++ "\n\nContent: " ++ bp.content }]

/-- Model of `run_agent_workflow(blog_post)`: the agent loop with `max_iterations = 20`,
a fresh conversation and a fresh accumulator. -/
def run_agent_workflow (ω : Oracle) (bp : BlogPost) (k : Nat) : AgentResult × Nat :=
  agent_loop ω bp 20 (initAgentMessages bp) initResults k

/-- The Python dict each `run_agent_workflow` return site actually yields, as
consumed by `compare_workflows` via `.get`. -/
def AgentResult.toDict : AgentResult → List (String × JValue)
  | .error => [("error", JValue.str "LLM call failed")]
  | .finished args => args
  | .collected r =>
    [("summary", (r.summary).getD JValue.null),
     ("social_posts", (r.social_posts).getD JValue.null),
     ("email", (r.email).getD JValue.null)]

/-- One side of the comparison report: evaluations of the summary, social and
email fragments. -/
structure EvalTriple where
  summary : EvaluationResult
  social : EvaluationResult
  email : EvaluationResult
deriving Repr, DecidableEq

/-- The side-by-side report returned by `compare_workflows`. -/
structure ComparisonReport where
  reflexion_eval : EvalTriple
  agent_eval : EvalTriple
deriving Repr, DecidableEq

/-- The report-building part of `compare_workflows` (lines 323–334), as a
function of the two pipeline outputs: six evaluator calls in source order;
absent agent fields fall back to `""` / `{}` via `.get(key, default)`. -/
def compare_report (ω : Oracle) (reflexion_output : ReflexionOutput)
    (agent_output : List (String × JValue)) (k : Nat) : ComparisonReport × Nat :=
  let r1 := evaluate_content ω (pyShow reflexion_output.summary) "summary" k
  let r2 := evaluate_content ω (jdumps reflexion_output.social_media) "social_media_post" r1.2
  let r3 := evaluate_content ω (jdumps reflexion_output.email) "email" r2.2
  let a1 := evaluate_content ω (pyShow (jlookupD agent_output "summary" (JValue.str ""))) "summary" r3.2
  let a2 := evaluate_content ω (jdumps (jlookupD agent_output "social_posts" (JValue.obj []))) "social_media_post" a1.2
  let a3 := evaluate_content ω (jdumps (jlookupD agent_output "email" (JValue.obj []))) "email" a2.2
  ({ reflexion_eval := { summary := r1.1, social := r2.1, email := r3.1 },
     agent_eval := { summary := a1.1, social := a2.1, email := a3.1 } }, a3.2)

/-- Model of `compare_workflows(blog_post)`: run both pipelines, then build the report. -/
def compare_workflows (ω : Oracle) (bp : BlogPost) (k : Nat) : ComparisonReport × Nat :=
  let ro := run_workflow_with_reflexion ω bp k
  let ao := run_agent_workflow ω bp ro.2
  compare_report ω ro.1 (ao.1).toDict ao.2

/-- A concrete blog post for witnesses and counterexamples. -/
def bp0 : BlogPost := { title := "T", content := "C" }

/-- A response with no tool calls whose text does not contain `"good"`. -/
def respNoTools : LLMResponse := { message := { content := "ok", tool_calls := [] } }

/-- A response with no tool calls whose text contains `"good"`. -/
def respGood : LLMResponse := { message := { content := "good work", tool_calls := [] } }

/-- The `finish` arguments `{summary: "S", social_posts: {}, email: {}}`. -/
def finishArgs : List (String × JValue) :=
  [("summary", JValue.str "S"), ("social_posts", JValue.obj []), ("email", JValue.obj [])]

/-- An `extract_key_points` invocation with empty arguments. -/
def extractCall : ToolCall := { id := "call_0", name := "extract_key_points", arguments := [] }

/-- A `finish` invocation carrying `finishArgs`. -/
def finishCall : ToolCall := { id := "call_1", name := "finish", arguments := finishArgs }

/-- A response whose only tool call is `finish`. -/
def respFinishFirst : LLMResponse :=
  { message := { content := "", tool_calls := [finishCall] } }

/-- A response that queues an `extract_key_points` call before `finish`. -/
def respExtractThenFinish : LLMResponse :=
  { message := { content := "", tool_calls := [extractCall, finishCall] } }

/-- A response carrying 150 `extract_key_points` invocations in one turn. -/
def respManyTools : LLMResponse :=
  { message := { content := "", tool_calls := List.replicate 150 extractCall } }

/-- The always-failing gateway. -/
def oracleNone : Oracle := fun _ => none

/-- The gateway that always answers with `respNoTools`. -/
def oracleNoTools : Oracle := fun _ => some respNoTools

/-- The gateway that always answers with `respGood`. -/
def oracleGood : Oracle := fun _ => some respGood

/-- First turn queues `extract_key_points` then `finish`; later calls are tool-free. -/
def oracleExtractThenFinish : Oracle :=
  fun j => if j = 0 then some respExtractThenFinish else some respNoTools

/-- First turn is a lone `finish`; later calls are tool-free. -/
def oracleFinishFirst : Oracle :=
  fun j => if j = 0 then some respFinishFirst else some respNoTools

/-- First turn floods 150 tool invocations; later calls are tool-free. -/
def oracleManyTools : Oracle :=
  fun j => if j = 0 then some respManyTools else some respNoTools

/-- A generator that makes no gateway calls and yields the string `"draft"`. -/
def genDraft : Nat → JValue × Nat := fun k => (JValue.str "draft", k)

/-- A concrete reflexion-pipeline output for the comparison witnesses. -/
def ro0 : ReflexionOutput :=
  { summary := JValue.str "S", social_media := JValue.obj [], email := JValue.obj [] }

theorem evaluate_content_snd (ω : Oracle) (c ct : String) (k : Nat) :
    (evaluate_content ω c ct k).2 = k + 1 := by
  unfold evaluate_content call_llm
  cases ω k <;> simp

theorem improve_content_snd (ω : Oracle) (c : JValue) (fb ct : String) (k : Nat) :
    (improve_content ω c fb ct k).2 = k + 1 := by
  unfold improve_content call_llm
  cases ω k <;> simp

theorem task_extract_key_points_snd (ω : Oracle) (bp : BlogPost) (k : Nat) :
    (task_extract_key_points ω bp k).2 = k + 1 := by
  unfold task_extract_key_points call_llm
  cases hω : ω k with
  | none => simp
  | some r => cases htc : r.message.tool_calls <;> simp [htc]

theorem task_generate_summary_snd (ω : Oracle) (kp : JValue) (k : Nat) :
    (task_generate_summary ω kp k).2 = k + 1 := by
  unfold task_generate_summary call_llm
  cases hω : ω k with
  | none => simp
  | some r => cases htc : r.message.tool_calls <;> simp [htc]

theorem task_create_social_media_posts_snd (ω : Oracle) (kp : JValue) (t : String) (k : Nat) :
    (task_create_social_media_posts ω kp t k).2 = k + 1 := by
  unfold task_create_social_media_posts call_llm
  cases hω : ω k with
  | none => simp
  | some r => cases htc : r.message.tool_calls <;> simp [htc]

theorem task_create_email_newsletter_snd (ω : Oracle) (bp : BlogPost) (s kp : JValue) (k : Nat) :
    (task_create_email_newsletter ω bp s kp k).2 = k + 1 := by
  unfold task_create_email_newsletter call_llm
  cases hω : ω k with
  | none => simp
  | some r => cases htc : r.message.tool_calls <;> simp [htc]

theorem reflexion_loop_snd_le (ω : Oracle) (ct : String) (n : Nat) :
    ∀ c k, (reflexion_loop ω ct n c k).2 ≤ k + 2 * n := by
  induction n with
  | zero => intro c k; simp [reflexion_loop]
  | succ n ih =>
    intro c k
    unfold reflexion_loop
    dsimp only
    split
    · simp [evaluate_content_snd]; omega
    · have h1 := ih (improve_content ω c (evaluate_content ω (pyShow c) ct k).1.feedback ct
        (evaluate_content ω (pyShow c) ct k).2).1
        (improve_content ω c (evaluate_content ω (pyShow c) ct k).1.feedback ct
        (evaluate_content ω (pyShow c) ct k).2).2
      have h2 := improve_content_snd ω c (evaluate_content ω (pyShow c) ct k).1.feedback ct
        (evaluate_content ω (pyShow c) ct k).2
      have h3 := evaluate_content_snd ω (pyShow c) ct k
      omega

theorem reflexion_loop_le_snd (ω : Oracle) (ct : String) (n : Nat) :
    ∀ c k, k ≤ (reflexion_loop ω ct n c k).2 := by
  induction n with
  | zero => intro c k; simp [reflexion_loop]
  | succ n ih =>
    intro c k
    unfold reflexion_loop
    dsimp only
    split
    · simp [evaluate_content_snd]
    · have h1 := ih (improve_content ω c (evaluate_content ω (pyShow c) ct k).1.feedback ct
        (evaluate_content ω (pyShow c) ct k).2).1
        (improve_content ω c (evaluate_content ω (pyShow c) ct k).1.feedback ct
        (evaluate_content ω (pyShow c) ct k).2).2
      have h2 := improve_content_snd ω c (evaluate_content ω (pyShow c) ct k).1.feedback ct
        (evaluate_content ω (pyShow c) ct k).2
      have h3 := evaluate_content_snd ω (pyShow c) ct k
      omega

theorem improve_content_ne_null (ω : Oracle) (c : JValue) (fb ct : String) (k : Nat)
    (h : c ≠ JValue.null) : (improve_content ω c fb ct k).1 ≠ JValue.null := by
  unfold improve_content call_llm
  cases ω k <;> simp [h]

theorem reflexion_loop_ne_null (ω : Oracle) (ct : String) (n : Nat) :
    ∀ c k, c ≠ JValue.null → (reflexion_loop ω ct n c k).1 ≠ JValue.null := by
  induction n with
  | zero => intro c k h; simpa [reflexion_loop] using h
  | succ n ih =>
    intro c k h
    unfold reflexion_loop
    dsimp only
    split
    · simpa using h
    · exact ih _ _ (improve_content_ne_null ω c _ ct _ h)

theorem execute_agent_tool_snd_bounds (ω : Oracle) (bp : BlogPost) (t : String)
    (args : List (String × JValue)) (k : Nat) :
    k ≤ (execute_agent_tool ω bp t args k).2 ∧
    (execute_agent_tool ω bp t args k).2 ≤ k + 3 := by
  unfold execute_agent_tool
  split_ifs with h1 h2 h3 h4
  · dsimp only
    rw [task_extract_key_points_snd]
    omega
  · dsimp only
    rw [task_generate_summary_snd]
    split
    · omega
    · rw [task_extract_key_points_snd]; omega
  · dsimp only
    split
    · rw [task_create_social_media_posts_snd]; omega
    · rw [task_create_social_media_posts_snd, task_extract_key_points_snd]; omega
  · dsimp only
    rw [task_create_email_newsletter_snd]
    split <;> split <;>
      simp only [task_extract_key_points_snd, task_generate_summary_snd] <;> omega
  · simp

theorem process_tool_calls_snd_bounds (ω : Oracle) (bp : BlogPost) (l : List ToolCall) :
    ∀ res msgs k, k ≤ (process_tool_calls ω bp l res msgs k).2.2.2 ∧
      (process_tool_calls ω bp l res msgs k).2.2.2 ≤ k + 3 * l.length := by
  induction l with
  | nil => intro res msgs k; simp [process_tool_calls]
  | cons tc rest ih =>
    intro res msgs k
    unfold process_tool_calls
    split
    · simp
    · dsimp only
      have h1 := ih (updateResults res tc.name (execute_agent_tool ω bp tc.name tc.arguments k).1)
        (msgs ++ [toolResultMsg tc (execute_agent_tool ω bp tc.name tc.arguments k).1])
        (execute_agent_tool ω bp tc.name tc.arguments k).2
      have h2 := execute_agent_tool_snd_bounds ω bp tc.name tc.arguments k
      simp only [List.length_cons]
      omega

theorem process_tool_calls_no_finish (ω : Oracle) (bp : BlogPost) (l : List ToolCall) :
    ∀ res msgs k, (∀ tc ∈ l, tc.name ≠ "finish") →
      (process_tool_calls ω bp l res msgs k).1 = none := by
  induction l with
  | nil => intro res msgs k h; simp [process_tool_calls]
  | cons tc rest ih =>
    intro res msgs k h
    unfold process_tool_calls
    rw [if_neg (h tc (List.mem_cons_self tc rest))]
    exact ih _ _ _ (fun tc' h' => h tc' (List.mem_cons_of_mem tc h'))

theorem updateResults_summary_ne (res : Results) (t : String) (v : JValue)
    (h : t ≠ "generate_summary") : (updateResults res t v).summary = res.summary := by
  unfold updateResults
  rw [if_neg h]
  split_ifs <;> rfl

theorem updateResults_social_ne (res : Results) (t : String) (v : JValue)
    (h : t ≠ "create_social_media_posts") :
    (updateResults res t v).social_posts = res.social_posts := by
  unfold updateResults
  split_ifs <;> rfl

theorem updateResults_email_ne (res : Results) (t : String) (v : JValue)
    (h : t ≠ "create_email_newsletter") : (updateResults res t v).email = res.email := by
  unfold updateResults
  split_ifs <;> rfl

theorem process_tool_calls_summary_ne (ω : Oracle) (bp : BlogPost) (l : List ToolCall) :
    ∀ res msgs k, (∀ tc ∈ l, tc.name ≠ "generate_summary") →
      (process_tool_calls ω bp l res msgs k).2.1.summary = res.summary := by
  induction l with
  | nil => intro res msgs k h; simp [process_tool_calls]
  | cons tc rest ih =>
    intro res msgs k h
    unfold process_tool_calls
    split
    · rfl
    · dsimp only
      rw [ih _ _ _ (fun tc' h' => h tc' (List.mem_cons_of_mem tc h'))]
      exact updateResults_summary_ne res tc.name _ (h tc (List.mem_cons_self tc rest))

theorem process_tool_calls_social_ne (ω : Oracle) (bp : BlogPost) (l : List ToolCall) :
    ∀ res msgs k, (∀ tc ∈ l, tc.name ≠ "create_social_media_posts") →
      (process_tool_calls ω bp l res msgs k).2.1.social_posts = res.social_posts := by
  induction l with
  | nil => intro res msgs k h; simp [process_tool_calls]
  | cons tc rest ih =>
    intro res msgs k h
    unfold process_tool_calls
    split
    · rfl
    · dsimp only
      rw [ih _ _ _ (fun tc' h' => h tc' (List.mem_cons_of_mem tc h'))]
      exact updateResults_social_ne res tc.name _ (h tc (List.mem_cons_self tc rest))

theorem process_tool_calls_email_ne (ω : Oracle) (bp : BlogPost) (l : List ToolCall) :
    ∀ res msgs k, (∀ tc ∈ l, tc.name ≠ "create_email_newsletter") →
      (process_tool_calls ω bp l res msgs k).2.1.email = res.email := by
  induction l with
  | nil => intro res msgs k h; simp [process_tool_calls]
  | cons tc rest ih =>
    intro res msgs k h
    unfold process_tool_calls
    split
    · rfl
    · dsimp only
      rw [ih _ _ _ (fun tc' h' => h tc' (List.mem_cons_of_mem tc h'))]
      exact updateResults_email_ne res tc.name _ (h tc (List.mem_cons_self tc rest))

theorem agent_loop_snd_le (ω : Oracle) (bp : BlogPost) (T : Nat)
    (hT : ∀ j r, ω j = some r → r.message.tool_calls.length ≤ T) :
    ∀ fuel msgs res k, (agent_loop ω bp fuel msgs res k).2 ≤ k + fuel * (1 + 3 * T) := by
  intro fuel
  induction fuel with
  | zero => intro msgs res k; simp [agent_loop]
  | succ fuel ih =>
    intro msgs res k
    unfold agent_loop call_llm
    cases hω : ω k with
    | none => simp; nlinarith
    | some r =>
      dsimp only
      cases htc : r.message.tool_calls with
      | nil => simp; nlinarith
      | cons tc rest =>
        dsimp only
        have hlen : (tc :: rest).length ≤ T := by rw [← htc]; exact hT k r hω
        have hpr := process_tool_calls_snd_bounds ω bp (tc :: rest) res
          (msgs ++ [{ role := "assistant", content := r.message.content,
                      tool_calls := tc :: rest : ChatMsg }]) (k + 1)
        split
        · have : (1 + 3 * T) ≤ (fuel + 1) * (1 + 3 * T) := Nat.le_mul_of_pos_left _ (Nat.succ_pos fuel)
          omega
        · have hrec := ih (process_tool_calls ω bp (tc :: rest) res
            (msgs ++ [{ role := "assistant", content := r.message.content,
                        tool_calls := tc :: rest : ChatMsg }]) (k + 1)).2.2.1
            (process_tool_calls ω bp (tc :: rest) res
            (msgs ++ [{ role := "assistant", content := r.message.content,
                        tool_calls := tc :: rest : ChatMsg }]) (k + 1)).2.1
            (process_tool_calls ω bp (tc :: rest) res
            (msgs ++ [{ role := "assistant", content := r.message.content,
                        tool_calls := tc :: rest : ChatMsg }]) (k + 1)).2.2.2
          have hmul : (fuel + 1) * (1 + 3 * T) = fuel * (1 + 3 * T) + (1 + 3 * T) :=
            Nat.succ_mul fuel (1 + 3 * T)
          omega

theorem agent_loop_no_finish (ω : Oracle) (bp : BlogPost)
    (hsome : ∀ j, (ω j).isSome = true)
    (hnofin : ∀ j r, ω j = some r → ∀ tc ∈ r.message.tool_calls, tc.name ≠ "finish") :
    ∀ fuel msgs res k, ∃ res' : Results,
      (agent_loop ω bp fuel msgs res k).1 = AgentResult.collected res' ∧
      ((∀ j r, ω j = some r → ∀ tc ∈ r.message.tool_calls, tc.name ≠ "generate_summary") →
        res'.summary = res.summary) ∧
      ((∀ j r, ω j = some r → ∀ tc ∈ r.message.tool_calls,
          tc.name ≠ "create_social_media_posts") →
        res'.social_posts = res.social_posts) ∧
      ((∀ j r, ω j = some r → ∀ tc ∈ r.message.tool_calls,
          tc.name ≠ "create_email_newsletter") →
        res'.email = res.email) := by
  intro fuel
  induction fuel with
  | zero =>
    intro msgs res k
    exact ⟨res, rfl, fun _ => rfl, fun _ => rfl, fun _ => rfl⟩
  | succ fuel ih =>
    intro msgs res k
    unfold agent_loop call_llm
    cases hω : ω k with
    | none =>
      have h := hsome k
      rw [hω] at h
      simp at h
    | some r =>
      dsimp only
      cases htc : r.message.tool_calls with
      | nil => exact ⟨res, rfl, fun _ => rfl, fun _ => rfl, fun _ => rfl⟩
      | cons tc rest =>
        dsimp only
        set msgs1 := msgs ++ [{ role := "assistant", content := r.message.content,
                                tool_calls := tc :: rest : ChatMsg }] with hmsgs1
        set pr := process_tool_calls ω bp (tc :: rest) res msgs1 (k + 1) with hprdef
        have hnf : ∀ tc' ∈ (tc :: rest), tc'.name ≠ "finish" := fun tc' h' =>
          hnofin k r hω tc' (htc ▸ h')
        have hpnone : pr.1 = none :=
          process_tool_calls_no_finish ω bp (tc :: rest) res msgs1 (k + 1) hnf
        rw [hpnone]
        obtain ⟨res', h1, hs, hp, he⟩ := ih pr.2.2.1 pr.2.1 pr.2.2.2
        refine ⟨res', h1, ?_, ?_, ?_⟩
        · intro hS
          rw [hs hS]
          exact process_tool_calls_summary_ne ω bp (tc :: rest) res msgs1 (k + 1)
            (fun tc' h' => hS k r hω tc' (htc ▸ h'))
        · intro hP
          rw [hp hP]
          exact process_tool_calls_social_ne ω bp (tc :: rest) res msgs1 (k + 1)
            (fun tc' h' => hP k r hω tc' (htc ▸ h'))
        · intro hE
          rw [he hE]
          exact process_tool_calls_email_ne ω bp (tc :: rest) res msgs1 (k + 1)
            (fun tc' h' => hE k r hω tc' (htc ▸ h'))

/-- C1: for every `max_attempts = k ≥ 1` and every generator, the reflexion
wrapper makes at most `2k` gateway calls after the single initial generation
(at most `k` evaluate+improve cycles, each costing one evaluation call and at
most one improve call), terminates (it is a total function of fuel `k`), and
the returned content is non-null whenever the generator's content is non-null
(the improve step never introduces null). -/
theorem c1_reflexion_bounded_total (ω : Oracle) (gen : Nat → JValue × Nat)
    (max_attempts : Nat) (content_type : String) (k0 : Nat) (hma : 1 ≤ max_attempts) :
    (generate_with_reflexion ω gen max_attempts content_type k0).2 ≤
      (gen k0).2 + 2 * max_attempts ∧
    ((gen k0).1 ≠ JValue.null →
      (generate_with_reflexion ω gen max_attempts content_type k0).1 ≠ JValue.null) :=
  ⟨reflexion_loop_snd_le ω content_type max_attempts (gen k0).1 (gen k0).2,
   fun h => reflexion_loop_ne_null ω content_type max_attempts (gen k0).1 (gen k0).2 h⟩

/-- C1 witness: at `max_attempts = 3`, a trivial generator and the failing
gateway, the wrapper stops within the budget with non-null content. -/
theorem c1_witness :
    (generate_with_reflexion oracleNone genDraft 3 "content" 0).2 ≤ (genDraft 0).2 + 2 * 3 ∧
    ((genDraft 0).1 ≠ JValue.null →
      (generate_with_reflexion oracleNone genDraft 3 "content" 0).1 ≠ JValue.null) :=
  c1_reflexion_bounded_total oracleNone genDraft 3 "content" 0 (by decide)

/-- C7: whenever the evaluator's gateway call fails, `evaluate_content`
returns exactly the fixed default `{quality_score: 0.5, feedback: "No
evaluation"}` (and, being a total function, it cannot raise). -/
theorem c7_evaluator_default_on_failure (ω : Oracle) (content content_type : String)
    (k : Nat) (hfail : ω k = none) :
    evaluate_content ω content content_type k =
      ({ quality_score := mkRat 5 10, feedback := "No evaluation" }, k + 1) := by
  unfold evaluate_content call_llm
  rw [hfail]

/-- C7 witness: the always-failing gateway yields the fixed default. -/
theorem c7_witness :
    evaluate_content oracleNone "draft" "summary" 0 =
      ({ quality_score := mkRat 5 10, feedback := "No evaluation" }, 0 + 1) :=
  c7_evaluator_default_on_failure oracleNone "draft" "summary" 0 rfl

/-- C10: on gateway success with feedback text `t`, the score is `0.9` when
`"good"` occurs in `t` and `0.6` otherwise; every reachable score is one of
`{0.5, 0.6, 0.9}`; the score is a function of `t` alone; and the `0.8`
threshold is reached exactly when `t` contains `"good"`. -/
theorem c10_evaluator_score_lexical (ω : Oracle) (content content_type : String) (k : Nat) :
    ((evaluate_content ω content content_type k).1.quality_score = mkRat 5 10 ∨
     (evaluate_content ω content content_type k).1.quality_score = mkRat 6 10 ∨
     (evaluate_content ω content content_type k).1.quality_score = mkRat 9 10) ∧
    (∀ r, ω k = some r →
      evaluate_content ω content content_type k =
        ({ quality_score := if strContains r.message.content "good" then mkRat 9 10
             else mkRat 6 10,
           feedback := r.message.content }, k + 1) ∧
      ((evaluate_content ω content content_type k).1.quality_score ≥ mkRat 8 10 ↔
        strContains r.message.content "good" = true)) := by
  constructor
  · unfold evaluate_content call_llm
    cases ω k with
    | none => simp
    | some r =>
      dsimp only
      cases h : strContains r.message.content "good" <;> simp [h]
  · intro r hr
    constructor
    · unfold evaluate_content call_llm
      rw [hr]
    · unfold evaluate_content call_llm
      rw [hr]
      dsimp only
      cases h : strContains r.message.content "good" <;> decide

/-- C10 witness: on the concrete response `"good work"` the evaluator returns
score `0.9` and the threshold is met. -/
theorem c10_witness :
    evaluate_content oracleGood "draft" "summary" 0 =
      ({ quality_score := if strContains respGood.message.content "good" then mkRat 9 10
           else mkRat 6 10,
         feedback := respGood.message.content }, 0 + 1) ∧
    ((evaluate_content oracleGood "draft" "summary" 0).1.quality_score ≥ mkRat 8 10 ↔
      strContains respGood.message.content "good" = true) :=
  (c10_evaluator_score_lexical oracleGood "draft" "summary" 0).2 respGood rfl

/-- C3: with `max_attempts ≥ 1`, writing `s` for the score of the first
evaluation, the reflexion wrapper returns the initially generated content
right after that evaluation (final counter = generator counter + 1, i.e. one
generation and one evaluation consumed, no improve call) exactly when
`s ≥ 0.8`. -/
theorem c3_first_evaluation_threshold (ω : Oracle) (gen : Nat → JValue × Nat)
    (max_attempts : Nat) (content_type : String) (k0 : Nat) (hma : 1 ≤ max_attempts) :
    ((evaluate_content ω (pyShow (gen k0).1) content_type (gen k0).2).1.quality_score ≥
        mkRat 8 10 →
      generate_with_reflexion ω gen max_attempts content_type k0 =
        ((gen k0).1, (gen k0).2 + 1)) ∧
    ((generate_with_reflexion ω gen max_attempts content_type k0).2 = (gen k0).2 + 1 ↔
      (evaluate_content ω (pyShow (gen k0).1) content_type (gen k0).2).1.quality_score ≥
        mkRat 8 10) := by
  obtain ⟨n, rfl⟩ : ∃ n, max_attempts = n + 1 := ⟨max_attempts - 1, by omega⟩
  unfold generate_with_reflexion
  dsimp only
  unfold reflexion_loop
  dsimp only
  by_cases hs : (evaluate_content ω (pyShow (gen k0).1) content_type (gen k0).2).1.quality_score ≥
      mkRat 8 10
  · rw [if_pos hs, evaluate_content_snd]
    exact ⟨fun _ => rfl, by simp [hs]⟩
  · rw [if_neg hs]
    have hlow := reflexion_loop_le_snd ω content_type n
      (improve_content ω (gen k0).1
        (evaluate_content ω (pyShow (gen k0).1) content_type (gen k0).2).1.feedback
        content_type
        (evaluate_content ω (pyShow (gen k0).1) content_type (gen k0).2).2).1
      (improve_content ω (gen k0).1
        (evaluate_content ω (pyShow (gen k0).1) content_type (gen k0).2).1.feedback
        content_type
        (evaluate_content ω (pyShow (gen k0).1) content_type (gen k0).2).2).2
    have him := improve_content_snd ω (gen k0).1
      (evaluate_content ω (pyShow (gen k0).1) content_type (gen k0).2).1.feedback
      content_type
      (evaluate_content ω (pyShow (gen k0).1) content_type (gen k0).2).2
    have hev := evaluate_content_snd ω (pyShow (gen k0).1) content_type (gen k0).2
    constructor
    · intro h; exact absurd h hs
    · constructor
      · intro h; omega
      · intro h; exact absurd h hs

/-- C3 witness: with a gateway whose feedback contains `"good"` (score `0.9`),
the wrapper returns the generator's content after exactly one evaluation. -/
theorem c3_witness :
    generate_with_reflexion oracleGood genDraft 3 "summary" 0 =
      ((genDraft 0).1, (genDraft 0).2 + 1) :=
  (c3_first_evaluation_threshold oracleGood genDraft 3 "summary" 0 (by decide)).1 (by decide)

/-- C8: each of the four content tools returns its type-appropriate empty
default (empty list / empty string / empty mapping) after exactly its one
gateway call whenever that call fails or returns a response without tool
invocations; as total functions they cannot raise. -/
theorem c8_tools_empty_defaults (ω : Oracle) (bp : BlogPost) (kp s : JValue) (t : String)
    (k : Nat)
    (hfail : ω k = none ∨ ∃ r, ω k = some r ∧ r.message.tool_calls = []) :
    task_extract_key_points ω bp k = (JValue.arr [], k + 1) ∧
    task_generate_summary ω kp k = (JValue.str "", k + 1) ∧
    task_create_social_media_posts ω kp t k = (JValue.obj [], k + 1) ∧
    task_create_email_newsletter ω bp s kp k = (JValue.obj [], k + 1) := by
  rcases hfail with h | ⟨r, hr, htc⟩ <;>
    refine ⟨?_, ?_, ?_, ?_⟩ <;>
      simp [task_extract_key_points, task_generate_summary, task_create_social_media_posts,
            task_create_email_newsletter, call_llm, *]

/-- C8 witness: under the always-failing gateway all four tools yield their
empty defaults. -/
theorem c8_witness :
    task_extract_key_points oracleNone bp0 0 = (JValue.arr [], 0 + 1) ∧
    task_generate_summary oracleNone (JValue.arr []) 0 = (JValue.str "", 0 + 1) ∧
    task_create_social_media_posts oracleNone (JValue.arr []) "T" 0 = (JValue.obj [], 0 + 1) ∧
    task_create_email_newsletter oracleNone bp0 (JValue.str "") (JValue.arr []) 0 =
      (JValue.obj [], 0 + 1) :=
  c8_tools_empty_defaults oracleNone bp0 (JValue.arr []) (JValue.str "") "T" 0 (Or.inl rfl)

/-- C5: dispatching `create_email_newsletter` with arguments containing
neither `key_points` nor `summary` makes exactly two recovery gateway calls —
`extract_key_points` at counter `k`, then `generate_summary` at `k + 1` fed
with the re-extracted points — before the newsletter gateway call itself at
`k + 2`, for three calls in total. -/
theorem c5_newsletter_double_fallback (ω : Oracle) (bp : BlogPost)
    (args : List (String × JValue)) (k : Nat)
    (h1 : jlookup args "key_points" = none) (h2 : jlookup args "summary" = none) :
    execute_agent_tool ω bp "create_email_newsletter" args k =
      task_create_email_newsletter ω bp
        (task_generate_summary ω (task_extract_key_points ω bp k).1 (k + 1)).1
        (task_extract_key_points ω bp k).1 (k + 2) ∧
    (execute_agent_tool ω bp "create_email_newsletter" args k).2 = k + 3 := by
  have hmain : execute_agent_tool ω bp "create_email_newsletter" args k =
      task_create_email_newsletter ω bp
        (task_generate_summary ω (task_extract_key_points ω bp k).1 (k + 1)).1
        (task_extract_key_points ω bp k).1 (k + 2) := by
    unfold execute_agent_tool
    rw [if_neg (by decide), if_neg (by decide), if_neg (by decide), if_pos rfl]
    dsimp only
    rw [h1, h2]
    simp only [jtruthyOpt, if_false, Bool.false_eq_true,
      task_extract_key_points_snd, task_generate_summary_snd]
  refine ⟨hmain, ?_⟩
  rw [hmain, task_create_email_newsletter_snd]

/-- C5 witness: with empty invocation arguments and the tool-free gateway, the
dispatch makes the three calls and ends at counter 3. -/
theorem c5_witness :
    execute_agent_tool oracleNoTools bp0 "create_email_newsletter" [] 0 =
      task_create_email_newsletter oracleNoTools bp0
        (task_generate_summary oracleNoTools
          (task_extract_key_points oracleNoTools bp0 0).1 (0 + 1)).1
        (task_extract_key_points oracleNoTools bp0 0).1 (0 + 2) ∧
    (execute_agent_tool oracleNoTools bp0 "create_email_newsletter" [] 0).2 = 0 + 3 :=
  c5_newsletter_double_fallback oracleNoTools bp0 [] 0 rfl rfl

theorem agent_loop_finish_first (ω : Oracle) (bp : BlogPost) (fuel : Nat)
    (msgs : List ChatMsg) (res : Results) (k : Nat) (r : LLMResponse)
    (tc : ToolCall) (rest : List ToolCall)
    (hr : ω k = some r) (htc : r.message.tool_calls = tc :: rest)
    (hname : tc.name = "finish") :
    agent_loop ω bp (fuel + 1) msgs res k = (AgentResult.finished tc.arguments, k + 1) := by
  unfold agent_loop call_llm
  rw [hr]
  dsimp only
  rw [htc]
  dsimp only
  unfold process_tool_calls
  rw [if_pos hname]

/-- C4 (amended): if the FIRST tool invocation of the model's first response
is `finish` with arguments `A`, the agent loop returns exactly `A` and
performs exactly one gateway call.  (As literally stated — a `finish`
invocation merely contained anywhere in the first response — the claim fails:
queued invocations ahead of `finish` are executed first and cost further
gateway calls; see the counterexample.) -/
theorem c4_finish_first_one_call (ω : Oracle) (bp : BlogPost) (k0 : Nat) (r : LLMResponse)
    (tc : ToolCall) (rest : List ToolCall)
    (hr : ω k0 = some r) (htc : r.message.tool_calls = tc :: rest)
    (hname : tc.name = "finish") :
    run_agent_workflow ω bp k0 = (AgentResult.finished tc.arguments, k0 + 1) :=
  agent_loop_finish_first ω bp 19 (initAgentMessages bp) initResults k0 r tc rest hr htc hname

/-- C4 witness: a first response whose sole tool call is `finish` with
arguments `{summary: "S", social_posts: {}, email: {}}` ends the run at once
with those arguments and counter 1. -/
theorem c4_witness :
    run_agent_workflow oracleFinishFirst bp0 0 = (AgentResult.finished finishArgs, 0 + 1) :=
  c4_finish_first_one_call oracleFinishFirst bp0 0 respFinishFirst finishCall [] rfl rfl rfl

/-- C4 counterexample: the first response CONTAINS a `finish` invocation with
the claimed arguments (queued second, after an `extract_key_points`
invocation), yet the run performs 2 gateway calls, not exactly 1 — the claim
as stated is false. -/
theorem c4_counterexample :
    oracleExtractThenFinish 0 = some respExtractThenFinish ∧
    finishCall ∈ respExtractThenFinish.message.tool_calls ∧
    finishCall.name = "finish" ∧
    finishCall.arguments = finishArgs ∧
    run_agent_workflow oracleExtractThenFinish bp0 0 = (AgentResult.finished finishArgs, 2) ∧
    (2 : Nat) ≠ 0 + 1 :=
  ⟨rfl, List.Mem.tail _ (List.Mem.head _), rfl, rfl, rfl, by decide⟩

/-- C2 (amended): per agent run the gateway calls are bounded by
`max_iterations × (1 + 3·T)` where `T` bounds the number of tool invocations
the model returns in a single turn — 1 agent call per iteration plus at most
3 gateway calls (the tool call itself and up to 2 fallback re-derivations)
per queued invocation.  (The claimed fixed per-iteration bound of 7 is false
because the code executes every invocation queued in a turn; see the
counterexample.) -/
theorem c2_agent_calls_bounded (ω : Oracle) (bp : BlogPost) (k0 T : Nat)
    (hT : ∀ j r, ω j = some r → r.message.tool_calls.length ≤ T) :
    (run_agent_workflow ω bp k0).2 ≤ k0 + 20 * (1 + 3 * T) :=
  agent_loop_snd_le ω bp T hT 20 (initAgentMessages bp) initResults k0

/-- C2 witness: a gateway that never invokes tools keeps the run within the
bound for `T = 0`. -/
theorem c2_witness :
    (run_agent_workflow oracleNoTools bp0 0).2 ≤ 0 + 20 * (1 + 3 * 0) :=
  c2_agent_calls_bounded oracleNoTools bp0 0 0
    (fun j r h => by injection h with h'; rw [← h']; decide)

set_option maxRecDepth 100000 in
/-- C2 counterexample: a single turn queueing 150 `extract_key_points`
invocations drives one run to 152 gateway calls, exceeding the claimed bound
`max_iterations × 7 = 140` — the claim as stated is false. -/
theorem c2_counterexample :
    respManyTools.message.tool_calls.length = 150 ∧
    (run_agent_workflow oracleManyTools bp0 0).2 = 152 ∧
    ¬ ((152 : Nat) ≤ 20 * 7) :=
  ⟨rfl, rfl, by decide⟩

/-- C6: when every gateway call succeeds and no turn ever invokes `finish`,
the agent loop (a total function with fuel `max_iterations = 20`, hence
terminating within 20 iterations) returns the partial-results accumulator,
and any field whose producing tool was never invoked is still `None`. -/
theorem c6_exhaustion_returns_accumulator (ω : Oracle) (bp : BlogPost) (k0 : Nat)
    (hsome : ∀ j, (ω j).isSome = true)
    (hnofin : ∀ j r, ω j = some r → ∀ tc ∈ r.message.tool_calls, tc.name ≠ "finish") :
    ∃ res : Results,
      (run_agent_workflow ω bp k0).1 = AgentResult.collected res ∧
      ((∀ j r, ω j = some r → ∀ tc ∈ r.message.tool_calls, tc.name ≠ "generate_summary") →
        res.summary = none) ∧
      ((∀ j r, ω j = some r → ∀ tc ∈ r.message.tool_calls,
          tc.name ≠ "create_social_media_posts") →
        res.social_posts = none) ∧
      ((∀ j r, ω j = some r → ∀ tc ∈ r.message.tool_calls,
          tc.name ≠ "create_email_newsletter") →
        res.email = none) := by
  obtain ⟨res', h1, hs, hp, he⟩ :=
    agent_loop_no_finish ω bp hsome hnofin 20 (initAgentMessages bp) initResults k0
  exact ⟨res', h1, hs, hp, he⟩

/-- C6 witness: under the tool-free gateway the run returns the untouched
accumulator with all three fields `None`. -/
theorem c6_witness :
    ∃ res : Results,
      (run_agent_workflow oracleNoTools bp0 0).1 = AgentResult.collected res ∧
      ((∀ j r, oracleNoTools j = some r → ∀ tc ∈ r.message.tool_calls,
          tc.name ≠ "generate_summary") →
        res.summary = none) ∧
      ((∀ j r, oracleNoTools j = some r → ∀ tc ∈ r.message.tool_calls,
          tc.name ≠ "create_social_media_posts") →
        res.social_posts = none) ∧
      ((∀ j r, oracleNoTools j = some r → ∀ tc ∈ r.message.tool_calls,
          tc.name ≠ "create_email_newsletter") →
        res.email = none) :=
  c6_exhaustion_returns_accumulator oracleNoTools bp0 0 (fun _ => rfl)
    (fun j r h tc htc => by
      injection h with h'
      rw [← h'] at htc
      simp [respNoTools] at htc)

/-- C9: the comparison report is built by exactly six evaluator calls for any
pair of pipeline outputs (so it cannot raise even when the agent output is
empty), and an agent output missing `summary` / `social_posts` / `email` is
reported identically to one carrying the empty default `""` / `{}` / `{}` for
that key — the `.get(key, default)` substitution. -/
theorem c9_compare_absent_fields_defaulted (ω : Oracle) (ro : ReflexionOutput)
    (ad : List (String × JValue)) (k : Nat) :
    (compare_report ω ro ad k).2 = k + 6 ∧
    (jlookup ad "summary" = none →
      compare_report ω ro ad k =
        compare_report ω ro (("summary", JValue.str "") :: ad) k) ∧
    (jlookup ad "social_posts" = none →
      compare_report ω ro ad k =
        compare_report ω ro (("social_posts", JValue.obj []) :: ad) k) ∧
    (jlookup ad "email" = none →
      compare_report ω ro ad k =
        compare_report ω ro (("email", JValue.obj []) :: ad) k) := by
  refine ⟨?_, ?_, ?_, ?_⟩
  · simp [compare_report, evaluate_content_snd]
  · intro h
    simp [compare_report, jlookupD, jlookup, h]
  · intro h
    simp [compare_report, jlookupD, jlookup, h]
  · intro h
    simp [compare_report, jlookupD, jlookup, h]

/-- C9 witness: with a fully empty agent output (all fields absent) the report
is built from six evaluations and coincides with the report over explicit
empty defaults. -/
theorem c9_witness :
    (compare_report oracleNoTools ro0 [] 0).2 = 0 + 6 ∧
    compare_report oracleNoTools ro0 [] 0 =
      compare_report oracleNoTools ro0 [("summary", JValue.str "")] 0 :=
  ⟨(c9_compare_absent_fields_defaulted oracleNoTools ro0 [] 0).1,
   (c9_compare_absent_fields_defaulted oracleNoTools ro0 [] 0).2.1 rfl⟩
